import Mathlib

/-!
Verification of the mcapi deployment engine (src/deployEngine.js, src/routes.js)
against its natural-language specification.

The JavaScript engine is shallowly embedded: asynchronous operations become
pure functions over an explicit state, and the observations the code makes of
the operating system (which ports are bound, how many matching java processes
exist, what the server log contains) become explicit parameters.  Each
definition mirrors one function of the source, keeping its name where Lean
allows it.
-/

namespace MCApi

/-! ## Port allocator (deployEngine.js, constructor and findAvailablePort / isPortAvailable) -/

/-- Default of MINECRAFT_PORT_START in the DeployEngine constructor. -/
def portStartDefault : Nat := 25565

/-- Default of MINECRAFT_PORT_END in the DeployEngine constructor. -/
def portEndDefault : Nat := 26000

/-- isPortAvailable: the bind probe succeeds exactly when no socket is
currently bound to the port.  The set of OS-bound ports is the explicit
parameter. -/
def isPortAvailable (osBound : List Nat) (p : Nat) : Bool :=
  !(osBound.contains p)

/-- The loop body of findAvailablePort: scan from port p, with fuel counting
the remaining candidates up to portEnd. -/
def scanPorts (osBound : List Nat) : Nat → Nat → Option Nat
  | _, 0 => none
  | p, fuel + 1 =>
    if isPortAvailable osBound p then some p
    else scanPorts osBound (p + 1) fuel

/-- findAvailablePort: linear scan from pStart to pEnd inclusive; the first
port whose bind probe succeeds is returned, and the scan exhausting the range
is the failure (the thrown "No available ports found"). -/
def findAvailablePort (osBound : List Nat) (pStart pEnd : Nat) : Option Nat :=
  scanPorts osBound pStart (pEnd + 1 - pStart)

/-! ## Registry, persisted descriptor and server.properties
(deployEngine.js: activeServers map, server.config.json, getServerPort) -/

/-- The descriptor saved into activeServers and server.config.json (the fields
the lifecycle operations read back: ram, port, status). -/
structure ServerConfig where
  serverId : String
  edition : String
  version : String
  ram : Nat
  port : Nat
  status : String
deriving DecidableEq

/-- The in-memory activeServers map, as an association list. -/
abbrev Registry := List (String × ServerConfig)

def regGet (reg : Registry) (sid : String) : Option ServerConfig :=
  (reg.find? (fun e => e.1 == sid)).map (·.2)

def regSet (reg : Registry) (sid : String) (c : ServerConfig) : Registry :=
  (sid, c) :: reg.filter (fun e => !(e.1 == sid))

def regDelete (reg : Registry) (sid : String) : Registry :=
  reg.filter (fun e => !(e.1 == sid))

/-- The server.properties file of a workspace as its key-value bindings;
the regex match in getServerPort returns the first server-port entry. -/
abbrev PropsFile := List (String × Nat)

/-- getServerPort: read server.properties; on a missing file or a missing
server-port entry, fall back to 25565. -/
def getServerPort (props : Option PropsFile) : Nat :=
  match props with
  | none => 25565
  | some kvs =>
    match kvs.lookup "server-port" with
    | some p => p
    | none => 25565

/-- isServerRunning: the port read from server.properties is probed with the
bind test, and the matching java processes under the workspace directory are
counted; running means the port is not available or at least one process
matches. -/
def isServerRunning (props : Option PropsFile) (osBound : List Nat)
    (procCount : Nat) : Bool :=
  !(isPortAvailable osBound (getServerPort props)) || decide (procCount > 0)

/-! ## stopServer (deployEngine.js lines 522-562)

The PID-file signal, the killall fallback and the fuser kill-by-port fallback
mutate the operating system; osBound and procCount are the observations made
after those kills and the settle wait, when stopServer verifies via
isServerRunning.  killPort records which port the fuser fallback targeted. -/

structure StopResult where
  ok : Bool
  registry : Registry
  killPort : Nat
deriving DecidableEq

def stopServer (reg : Registry) (sid : String) (props : Option PropsFile)
    (osBound : List Nat) (procCount : Nat) : StopResult :=
  let kp := getServerPort props
  if isServerRunning props osBound procCount then
    { ok := false, registry := reg, killPort := kp }
  else
    { ok := true, registry := regDelete reg sid, killPort := kp }

/-- Fixture: a deployed instance descriptor used by concrete witnesses. -/
def cfgA : ServerConfig :=
  { serverId := "mc-1"
    edition := "vanilla"
    version := "1.21"
    ram := 2
    port := 25570
    status := "running" }

/-- Fixture: a registry holding exactly cfgA. -/
def regA : Registry := [("mc-1", cfgA)]

/-- Fixture: the server.properties bindings written for cfgA at deploy time. -/
def propsA : PropsFile := [("server-port", 25570)]

/-! ## restartServer (deployEngine.js lines 564-596)

restartServer resolves the descriptor from the registry, falling back to the
persisted server.config.json on a miss (both missing is the thrown readFile
error); it then calls stopServer, waits, re-checks isServerRunning with the
post-stop observation, throws before startServer when still running, and
otherwise relaunches with the persisted ram and port and re-registers the
descriptor with status running.  startOk stands for whether the startServer
call (modelled separately) succeeds. -/

inductive RestartResult
  | noConfig
  | stopFailed
  | launchFailed (ram port : Nat)
  | restarted (ram port : Nat)
deriving DecidableEq

def restartServer (reg : Registry) (sid : String) (persisted : Option ServerConfig)
    (props : Option PropsFile) (osBound : List Nat) (procCount : Nat)
    (startOk : Bool) : RestartResult × Registry :=
  match (regGet reg sid).orElse (fun _ => persisted) with
  | none => (.noConfig, reg)
  | some cfg =>
    let s := stopServer reg sid props osBound procCount
    if isServerRunning props osBound procCount then
      (.stopFailed, s.registry)
    else if startOk then
      (.restarted cfg.ram cfg.port,
        regSet s.registry sid { cfg with status := "running" })
    else
      (.launchFailed cfg.ram cfg.port, s.registry)

/-! ## getServerStatus (deployEngine.js lines 909-912) -/

/-- getServerStatus: a pure registry lookup; a miss yields the string
not_found.  The function takes no filesystem input because the source reads
none. -/
def getServerStatus (reg : Registry) (sid : String) : String :=
  match regGet reg sid with
  | some cfg => cfg.status
  | none => "not_found"

/-- Modelled from the spec: the Status lookup the specification describes,
which on a registry miss loads a persisted descriptor from the workspace into
the registry and answers from it before declaring not_found.  This definition
follows the words of the specification, for comparison with getServerStatus
as implemented. -/
def getServerStatusSpec (reg : Registry) (disk : Option ServerConfig)
    (sid : String) : String × Registry :=
  match regGet reg sid with
  | some cfg => (cfg.status, reg)
  | none =>
    match disk with
    | some cfg => (cfg.status, regSet reg sid cfg)
    | none => ("not_found", reg)

/-! ## startServer readiness (deployEngine.js lines 474-519)

startServer spawns the detached java process, writes server.pid, then sleeps
a single fixed 30000 ms window and inspects the log and the port exactly
once.  The returned Nat is the elapsed wait in milliseconds before the
outcome is produced. -/

/-- Leading-match test used by the substring search. -/
def charsAgree : List Char → List Char → Bool
  | [], _ => true
  | _ :: _, [] => false
  | a :: as, b :: bs => (a == b) && charsAgree as bs

/-- Substring search over character lists, mirroring String.prototype.includes. -/
def containsSub : List Char → List Char → Bool
  | [], needle => needle.isEmpty
  | h :: t, needle => charsAgree needle (h :: t) || containsSub t needle

def strIncludes (s sub : String) : Bool :=
  containsSub s.toList sub.toList

inductive StartOutcome
  | ready
  | failed (msg : String)
deriving DecidableEq

/-- The 30000 ms of the single setTimeout before the readiness inspection. -/
def startServerWaitMs : Nat := 30000

/-- The one-shot inspection of the log content and the port probe, in the
order the source checks them. -/
def readinessCheck (log : String) (portListening : Bool) : StartOutcome :=
  if strIncludes log "Done" && strIncludes log "help" then .ready
  else if strIncludes log "ERROR" then
    .failed "Server startup failed - check server.log"
  else if portListening then .ready
  else .failed "Server started but not fully ready"

/-- startServer: wait the full fixed window, then check once; a missing log
file is the ENOENT branch. -/
def startServer (log : Option String) (portListening : Bool) : Nat × StartOutcome :=
  match log with
  | none =>
    (startServerWaitMs, .failed "Server log file not created - server failed to start")
  | some content => (startServerWaitMs, readinessCheck content portListening)

/-- Fixture: a log whose only marker is an ERROR line. -/
def errLog : String := "[12:00:01] [Server thread/ERROR]: Failed to bind to port"

/-! ## Validation, download URL table and the deploy pipeline
(deployEngine.js validateConfig, getDownloadUrl, deployServer; routes.js
POST deploy) -/

def supportedEditions : List String := ["vanilla", "paper", "fabric", "forge"]

def supportedGamemodes : List String :=
  ["survival", "creative", "adventure", "spectator"]

def supportedDifficulties : List String := ["peaceful", "easy", "normal", "hard"]

/-- The RAM range check at the end of validateConfig. -/
def validateRam (ram maxRam : Nat) : Option String :=
  if ram < 1 ∨ ram > maxRam then
    some ("RAM must be between 1 and " ++ toString maxRam ++ " GB")
  else none

def validateDifficultyRam (difficulty : Option String) (ram maxRam : Nat) :
    Option String :=
  match difficulty with
  | some d =>
    if !(supportedDifficulties.contains d) then
      some ("Unsupported difficulty: " ++ d)
    else validateRam ram maxRam
  | none => validateRam ram maxRam

/-- validateConfig: edition, then optional gamemode, then optional difficulty,
then the RAM bounds; the first failing check is the thrown error. -/
def validateConfig (edition : String) (gamemode difficulty : Option String)
    (ram maxRam : Nat) : Option String :=
  if !(supportedEditions.contains edition) then
    some ("Unsupported edition: " ++ edition)
  else
    match gamemode with
    | some g =>
      if !(supportedGamemodes.contains g) then
        some ("Unsupported gamemode: " ++ g)
      else validateDifficultyRam difficulty ram maxRam
    | none => validateDifficultyRam difficulty ram maxRam

/-- The fixed download table of getDownloadUrl, keyed by edition-version. -/
def downloadUrls : List (String × String) :=
  [("paper-1.21.1", "https://api.papermc.io/v2/projects/paper/versions/1.21.1/builds/306/downloads/paper-1.21.1-306.jar"),
   ("paper-1.21", "https://api.papermc.io/v2/projects/paper/versions/1.21/builds/306/downloads/paper-1.21-306.jar"),
   ("paper-1.20.4", "https://api.papermc.io/v2/projects/paper/versions/1.20.4/builds/526/downloads/paper-1.20.4-526.jar"),
   ("paper-1.20.1", "https://api.papermc.io/v2/projects/paper/versions/1.20.1/builds/196/downloads/paper-1.20.1-196.jar"),
   ("vanilla-1.21.1", "https://piston-data.mojang.com/v1/objects/5b868151bd02b41319f54c8d4061b8cae84e664c/server.jar"),
   ("vanilla-1.21", "https://piston-data.mojang.com/v1/objects/51c9b061ad06682e6e8b3b8df5bb6edac8130a0a/server.jar"),
   ("vanilla-1.20.1", "https://piston-data.mojang.com/v1/objects/15c777e2cfe0556eef19aab534b186c0c6f277e1/server.jar"),
   ("fabric-1.21.1", "https://meta.fabricmc.net/v2/versions/loader/1.21.1/0.15.7/0.15.7/server/jar"),
   ("fabric-1.21", "https://meta.fabricmc.net/v2/versions/loader/1.21/0.15.7/0.15.7/server/jar"),
   ("fabric-1.20.1", "https://meta.fabricmc.net/v2/versions/loader/1.20.1/0.15.7/0.15.7/server/jar"),
   ("forge-1.21.1", "https://maven.minecraftforge.net/net/minecraftforge/forge/1.21.1-48.0.1/forge-1.21.1-48.0.1-installer.jar"),
   ("forge-1.21", "https://maven.minecraftforge.net/net/minecraftforge/forge/1.21-48.0.0/forge-1.21-48.0.0-installer.jar"),
   ("forge-1.20.1", "https://maven.minecraftforge.net/net/minecraftforge/forge/1.20.1-47.2.0/forge-1.20.1-47.2.0-installer.jar")]

/-- getDownloadUrl: table lookup on the edition-version key; a missing key is
the thrown unsupported pair error. -/
def getDownloadUrl (edition version : String) : Option String :=
  downloadUrls.lookup (edition ++ "-" ++ version)

structure DeployRequest where
  serverId : String
  edition : String
  version : String
  gamemode : Option String
  difficulty : Option String
  ram : Nat
deriving DecidableEq

/-- The observable side effects of one deployServer run: whether the mkdir of
the workspace happened, which port the allocator granted, whether the jar
download and the long-running process launch were reached, and whether the
catch-all cleanupServer ran. -/
structure DeployEffects where
  dirCreated : Bool
  portAllocated : Option Nat
  downloadAttempted : Bool
  processStarted : Bool
  cleanupRan : Bool
deriving DecidableEq

inductive DeployOutcome
  | ok (port : Nat)
  | err (msg : String)
deriving DecidableEq

/-- The environment one deployServer run observes: the Java probe, the OS
port occupancy at allocation time, the engine port range and RAM bound, the
download result, and the log and port observations of the startServer phase.
Config-file writing and the error-swallowing first-run setup sit between the
download and the launch and introduce no claim-relevant branches. -/
structure DeployEnv where
  javaOk : Bool
  osBound : List Nat
  portStart : Nat
  portEnd : Nat
  maxRam : Nat
  downloadOk : Bool
  startLog : Option String
  startPortListening : Bool
deriving DecidableEq

def noEffects : DeployEffects :=
  { dirCreated := false
    portAllocated := none
    downloadAttempted := false
    processStarted := false
    cleanupRan := true }

/-- deployServer: validate, check Java, mkdir the workspace, allocate a port,
resolve the download URL, download, first-run setup, start, then register and
persist; every thrown error lands in the catch block, which runs
cleanupServer (remove the workspace, drop the registry entry). -/
def deployServer (reg : Registry) (req : DeployRequest) (env : DeployEnv) :
    DeployOutcome × DeployEffects × Registry :=
  match validateConfig req.edition req.gamemode req.difficulty req.ram env.maxRam with
  | some msg => (.err msg, noEffects, regDelete reg req.serverId)
  | none =>
    if !env.javaOk then
      (.err "Java not installed. Run: sudo apt install openjdk-17-jdk",
        noEffects, regDelete reg req.serverId)
    else
      match findAvailablePort env.osBound env.portStart env.portEnd with
      | none =>
        (.err "No available ports found",
          { noEffects with dirCreated := true }, regDelete reg req.serverId)
      | some port =>
        match getDownloadUrl req.edition req.version with
        | none =>
          (.err ("Unsupported edition/version: " ++ req.edition ++ " " ++ req.version),
            { noEffects with dirCreated := true, portAllocated := some port },
            regDelete reg req.serverId)
        | some _ =>
          if !env.downloadOk then
            (.err "Download failed",
              { noEffects with
                  dirCreated := true
                  portAllocated := some port
                  downloadAttempted := true },
              regDelete reg req.serverId)
          else
            match (startServer env.startLog env.startPortListening).2 with
            | .failed msg =>
              (.err msg,
                { dirCreated := true, portAllocated := some port,
                  downloadAttempted := true, processStarted := true,
                  cleanupRan := true },
                regDelete reg req.serverId)
            | .ready =>
              (.ok port,
                { dirCreated := true, portAllocated := some port,
                  downloadAttempted := true, processStarted := true,
                  cleanupRan := false },
                regSet reg req.serverId
                  { serverId := req.serverId
                    edition := req.edition
                    version := req.version
                    ram := req.ram
                    port := port
                    status := "running" })

/-- Fixture: a request whose edition is supported but whose edition-version
pair has no download URL. -/
def reqBadPair : DeployRequest :=
  { serverId := "mc-2"
    edition := "vanilla"
    version := "1.20.4"
    gamemode := none
    difficulty := none
    ram := 2 }

/-- Fixture: a request whose edition itself is unsupported. -/
def reqBadEdition : DeployRequest :=
  { serverId := "mc-3"
    edition := "spigot"
    version := "1.21"
    gamemode := none
    difficulty := none
    ram := 2 }

/-- Fixture: a benign environment with Java present, an empty port range and
a clean startup. -/
def envOk : DeployEnv :=
  { javaOk := true
    osBound := []
    portStart := 25565
    portEnd := 26000
    maxRam := 8
    downloadOk := true
    startLog := some "Done (3.2s)! For help, type help"
    startPortListening := true }

/-! ## The deploy route RAM handling (routes.js POST deploy, lines 91-117)

The handler builds deployConfig with ram = Math.min(parseInt(ram) or 2,
parseInt(MINECRAFT_MAX_RAM) or 8); a missing or zero request value falls to
2 and a missing or zero environment bound falls to 8, because parseInt
composed with the or-else operator treats 0 and NaN alike. -/

def routeDeployRam (ramReq : Option Nat) (maxRamEnv : Option Nat) : Nat :=
  min
    (match ramReq with
     | some n => if n = 0 then 2 else n
     | none => 2)
    (match maxRamEnv with
     | some m => if m = 0 then 8 else m
     | none => 8)

/-! ## Two concurrent deploys sharing the allocator
(deployEngine.js: deployServer calls findAvailablePort with no lock; the
allocated port is only bound later, when the java process starts)

A deploy is split at its suspension points into the two steps that touch the
shared port state: the allocation scan (findAvailablePort, reading the OS
bind state of the moment) and the eventual bind by the launched server
process.  Two in-flight deploys a and b interleave these steps; nothing in
the source serializes them or records a provisional claim. -/

inductive Phase
  | idle
  | deploying (p : Nat)
  | running (p : Nat)
deriving DecidableEq

inductive Tid
  | ta
  | tb
deriving DecidableEq

structure ConcState where
  osBound : List Nat
  a : Phase
  b : Phase
deriving DecidableEq

def phaseOf (s : ConcState) : Tid → Phase
  | .ta => s.a
  | .tb => s.b

def setPhase (s : ConcState) (t : Tid) (ph : Phase) : ConcState :=
  match t with
  | .ta => { s with a := ph }
  | .tb => { s with b := ph }

/-- The allocation step of a deploy: run findAvailablePort over the current
OS bind state (scan over the default engine range) and remember the granted
port; an exhausted range leaves the deploy where it was (the thrown error). -/
def allocStep (s : ConcState) (t : Tid) : ConcState :=
  match phaseOf s t with
  | .idle =>
    match findAvailablePort s.osBound portStartDefault portEndDefault with
    | some p => setPhase s t (.deploying p)
    | none => s
  | _ => s

/-- The later bind by the launched server process on the granted port. -/
def bindStep (s : ConcState) (t : Tid) : ConcState :=
  match phaseOf s t with
  | .deploying p => setPhase { s with osBound := p :: s.osBound } t (.running p)
  | _ => s

inductive CStep
  | alloc (t : Tid)
  | bindPort (t : Tid)

def applyStep (s : ConcState) : CStep → ConcState
  | .alloc t => allocStep s t
  | .bindPort t => bindStep s t

def runSteps (s : ConcState) : List CStep → ConcState
  | [] => s
  | st :: rest => runSteps (applyStep s st) rest

def activePort : Phase → Option Nat
  | .idle => none
  | .deploying p => some p
  | .running p => some p

/-- The ports held by instances that are deploying or running. -/
def activePorts (s : ConcState) : List Nat :=
  (activePort s.a).toList ++ (activePort s.b).toList

/-- The initial state: no port bound, no deploy in flight. -/
def concInit : ConcState := { osBound := [], a := .idle, b := .idle }

/-- The interleaving in which both deploys scan before either server binds. -/
def raceState : ConcState := runSteps concInit [.alloc .ta, .alloc .tb]

/-! ## deleteServer (deployEngine.js lines 598-609)

deleteServer runs stopServer best-effort (its boolean result is ignored and
it never throws), removes the workspace tree with the force flag (no error
when the directory is already gone), and drops the registry entry; every
branch of its body is non-throwing, so the catch that would return false is
unreachable and the call reports success even for an unknown or already
deleted id. -/

def deleteServer (reg : Registry) (fsDirs : List String) (sid : String)
    (props : Option PropsFile) (osBound : List Nat) (procCount : Nat) :
    Bool × Registry × List String :=
  let s := stopServer reg sid props osBound procCount
  (true, regDelete s.registry sid, fsDirs.filter (fun d => !(d == sid)))

/-! ## Theorems -/

theorem scanPorts_sound (osBound : List Nat) :
    ∀ (fuel p q : Nat), scanPorts osBound p fuel = some q →
      isPortAvailable osBound q = true ∧ p ≤ q ∧ q < p + fuel ∧
      (∀ r, p ≤ r → r < q → isPortAvailable osBound r = false) := by
  intro fuel
  induction fuel with
  | zero => intro p q h; simp [scanPorts] at h
  | succ n ih =>
    intro p q h
    by_cases hfree : isPortAvailable osBound p = true
    · simp [scanPorts, hfree] at h
      subst h
      exact ⟨hfree, le_rfl, by omega, fun r h1 h2 => absurd h2 (by omega)⟩
    · simp [scanPorts, hfree] at h
      obtain ⟨hq, hle, hlt, hbelow⟩ := ih (p + 1) q h
      refine ⟨hq, by omega, by omega, ?_⟩
      intro r h1 h2
      rcases Nat.eq_or_lt_of_le h1 with heq | hgt
      · subst heq; simpa using hfree
      · exact hbelow r hgt h2

theorem scanPorts_all_free (osBound : List Nat) (p n : Nat)
    (hfree : isPortAvailable osBound p = true) :
    scanPorts osBound p (n + 1) = some p := by
  simp [scanPorts, hfree]

/-- C8: the allocator scans linearly from rangeStart and returns the first
port whose bind probe succeeds; in particular, when every port in the
(nonempty) range is free it returns rangeStart. -/
theorem findAvailablePort_first_free (osBound : List Nat) (pStart pEnd : Nat) :
    (pStart ≤ pEnd → isPortAvailable osBound pStart = true →
      findAvailablePort osBound pStart pEnd = some pStart) ∧
    (∀ q, findAvailablePort osBound pStart pEnd = some q →
      isPortAvailable osBound q = true ∧ pStart ≤ q ∧ q ≤ pEnd ∧
      (∀ r, pStart ≤ r → r < q → isPortAvailable osBound r = false)) := by
  constructor
  · intro hle hfree
    have h : pEnd + 1 - pStart = (pEnd - pStart) + 1 := by omega
    rw [findAvailablePort, h]
    exact scanPorts_all_free osBound pStart (pEnd - pStart) hfree
  · intro q h
    obtain ⟨h1, h2, h3, h4⟩ := scanPorts_sound osBound (pEnd + 1 - pStart) pStart q h
    exact ⟨h1, h2, by omega, h4⟩

/-- C8 witness: on an empty occupancy set over the default range the allocator
returns the range start, and the soundness half evaluates at that output. -/
theorem findAvailablePort_first_free_witness :
    findAvailablePort [] portStartDefault portEndDefault = some portStartDefault ∧
    isPortAvailable [] portStartDefault = true := by
  have h := findAvailablePort_first_free [] portStartDefault portEndDefault
  have h1 := h.1 (by decide) (by decide)
  exact ⟨h1, (h.2 portStartDefault h1).1⟩

/-- C2: for a registered instance whose server.properties carries its
allocated port (as written at deploy time), a successful stop implies both
verification conditions (port free, no matching process), and a failed stop
leaves the registry unchanged, so the instance is still present with its
prior port. -/
theorem stopServer_verified (reg : Registry) (sid : String) (cfg : ServerConfig)
    (props : Option PropsFile) (osBound : List Nat) (procCount : Nat)
    (hreg : regGet reg sid = some cfg)
    (hport : getServerPort props = cfg.port) :
    ((stopServer reg sid props osBound procCount).ok = true →
      isPortAvailable osBound cfg.port = true ∧ procCount = 0) ∧
    ((stopServer reg sid props osBound procCount).ok = false →
      (stopServer reg sid props osBound procCount).registry = reg ∧
      regGet (stopServer reg sid props osBound procCount).registry sid = some cfg) := by
  by_cases hrun : isServerRunning props osBound procCount = true
  · constructor
    · intro h; simp [stopServer, hrun] at h
    · intro _; simp [stopServer, hrun, hreg]
  · have hrun' : isServerRunning props osBound procCount = false := by
      simpa using hrun
    constructor
    · intro _
      have := hrun'
      rw [isServerRunning, hport] at this
      simp only [Bool.or_eq_false_iff, Bool.not_eq_false', decide_eq_false_iff_not] at this
      exact ⟨this.1, by omega⟩
    · intro h; simp [stopServer, hrun'] at h

/-- C2 witness: the stop theorem applied to the concrete instance cfgA with a
post-kill observation of a free port and zero matching processes. -/
theorem stopServer_verified_witness :
    ((stopServer regA "mc-1" (some propsA) [] 0).ok = true →
      isPortAvailable [] cfgA.port = true ∧ (0 : Nat) = 0) ∧
    ((stopServer regA "mc-1" (some propsA) [] 0).ok = false →
      (stopServer regA "mc-1" (some propsA) [] 0).registry = regA ∧
      regGet (stopServer regA "mc-1" (some propsA) [] 0).registry "mc-1" = some cfgA) :=
  stopServer_verified regA "mc-1" cfgA (some propsA) [] 0 (by decide) (by decide)

/-- C10: when server.properties is missing or has no server-port entry,
getServerPort yields the fixed default 25565; consequently the fuser
kill-by-port fallback inside stopServer targets 25565 and isServerRunning
probes port 25565, not the port the instance actually allocated. -/
theorem getServerPort_default (props : Option PropsFile) (cfg : ServerConfig)
    (reg : Registry) (sid : String) (osBound : List Nat) (procCount : Nat)
    (hmiss : props = none ∨ ∃ kvs, props = some kvs ∧ kvs.lookup "server-port" = none)
    (hport : cfg.port ≠ 25565) :
    getServerPort props = 25565 ∧
    (stopServer reg sid props osBound procCount).killPort = 25565 ∧
    isServerRunning props osBound procCount =
      (!(isPortAvailable osBound 25565) || decide (procCount > 0)) ∧
    getServerPort props ≠ cfg.port := by
  have hdef : getServerPort props = 25565 := by
    rcases hmiss with h | ⟨kvs, hk, hl⟩
    · simp [getServerPort, h]
    · simp [getServerPort, hk, hl]
  refine ⟨hdef, ?_, ?_, ?_⟩
  · by_cases hrun : isServerRunning props osBound procCount = true
    · simp [stopServer, hrun, hdef]
    · simp only [Bool.not_eq_true] at hrun
      simp [stopServer, hrun, hdef]
  · rw [isServerRunning, hdef]
  · rw [hdef]; exact fun h => hport h.symm

/-- C10 witness: a properties file that lacks server-port, for the instance
cfgA allocated on port 25570. -/
theorem getServerPort_default_witness :
    getServerPort (some [("max-players", 20)]) = 25565 ∧
    (stopServer regA "mc-1" (some [("max-players", 20)]) [] 0).killPort = 25565 ∧
    isServerRunning (some [("max-players", 20)]) [] 0 =
      (!(isPortAvailable [] 25565) || decide ((0 : Nat) > 0)) ∧
    getServerPort (some [("max-players", 20)]) ≠ cfgA.port :=
  getServerPort_default (some [("max-players", 20)]) cfgA regA "mc-1" [] 0
    (Or.inr ⟨[("max-players", 20)], rfl, by decide⟩) (by decide)

/-- C3: restart stops before launching; when the post-stop check still sees
the server running, the result is a stop failure and no launch constructor is
produced, and a completed restart implies the stop verified and the relaunch
used exactly the persisted ram and port of the resolved descriptor. -/
theorem restartServer_stop_then_launch (reg : Registry) (sid : String)
    (persisted : Option ServerConfig) (cfg : ServerConfig)
    (props : Option PropsFile) (osBound : List Nat) (procCount : Nat)
    (startOk : Bool)
    (hcfg : (regGet reg sid).orElse (fun _ => persisted) = some cfg) :
    (isServerRunning props osBound procCount = true →
      (restartServer reg sid persisted props osBound procCount startOk).1 =
        .stopFailed) ∧
    (∀ r p, (restartServer reg sid persisted props osBound procCount startOk).1 =
        .restarted r p →
      r = cfg.ram ∧ p = cfg.port ∧
        isServerRunning props osBound procCount = false) := by
  constructor
  · intro hrun
    simp [restartServer, hcfg, hrun]
  · intro r p h
    by_cases hrun : isServerRunning props osBound procCount = true
    · simp [restartServer, hcfg, hrun] at h
    · simp only [Bool.not_eq_true] at hrun
      cases startOk with
      | false => simp [restartServer, hcfg, hrun] at h
      | true =>
        simp [restartServer, hcfg, hrun] at h
        exact ⟨h.1.symm, h.2.symm, hrun⟩

/-- C3 witness: restarting the concrete instance cfgA after a verified stop
relaunches on its persisted ram and port. -/
theorem restartServer_stop_then_launch_witness :
    (isServerRunning (some propsA) [] 0 = true →
      (restartServer regA "mc-1" none (some propsA) [] 0 true).1 =
        .stopFailed) ∧
    (∀ r p, (restartServer regA "mc-1" none (some propsA) [] 0 true).1 =
        .restarted r p →
      r = cfgA.ram ∧ p = cfgA.port ∧
        isServerRunning (some propsA) [] 0 = false) :=
  restartServer_stop_then_launch regA "mc-1" none cfgA (some propsA) [] 0 true
    (by decide)

/-- C5 counterexample: with an empty registry and a persisted descriptor for
mc-1 present on disk, the implemented Status lookup answers not_found without
loading the descriptor, while the specified lookup answers running; the
implemented registry is left empty. -/
theorem getServerStatus_ignores_disk :
    getServerStatus [] "mc-1" = "not_found" ∧
    (getServerStatusSpec [] (some cfgA) "mc-1").1 = "running" ∧
    getServerStatus [] "mc-1" ≠ (getServerStatusSpec [] (some cfgA) "mc-1").1 := by
  refine ⟨rfl, rfl, ?_⟩
  decide

/-- C5 amended: getServerStatus consults only the in-memory registry and
declares not_found on any miss regardless of the persisted descriptor, while
restartServer does fall back to the persisted descriptor on a registry miss
and relaunches from its ram and port. -/
theorem lookup_miss_behaviour (reg : Registry) (sid : String)
    (cfg : ServerConfig) (props : Option PropsFile) (osBound : List Nat)
    (procCount : Nat)
    (hmiss : regGet reg sid = none)
    (hstopped : isServerRunning props osBound procCount = false) :
    getServerStatus reg sid = "not_found" ∧
    (restartServer reg sid (some cfg) props osBound procCount true).1 =
      .restarted cfg.ram cfg.port := by
  constructor
  · simp [getServerStatus, hmiss]
  · simp [restartServer, hmiss, hstopped, Option.orElse]

/-- C5 amended witness: an empty registry with the persisted descriptor cfgA
on disk; Status answers not_found while restart recovers the descriptor. -/
theorem lookup_miss_behaviour_witness :
    getServerStatus [] "mc-9" = "not_found" ∧
    (restartServer [] "mc-9" (some cfgA) (some propsA) [] 0 true).1 =
      .restarted cfgA.ram cfgA.port :=
  lookup_miss_behaviour [] "mc-9" cfgA (some propsA) [] 0 rfl (by decide)

/-- C6 counterexample: on a log that already contains an ERROR marker the
start procedure still spends the entire fixed window before reporting the
failure; the failure is not reported before the timeout elapses, because the
source performs one sleep of the whole window and a single check rather than
polling. -/
theorem startServer_error_not_early :
    startServer (some errLog) false =
      (startServerWaitMs, .failed "Server startup failed - check server.log") ∧
    ¬ (startServer (some errLog) false).1 < startServerWaitMs := by
  constructor
  · decide
  · decide

/-- C6 amended: startServer performs a single fixed 30000 ms wait and then one
inspection, first match winning in the order: both Done and help markers give
ready; an ERROR marker gives an immediate failure of that single check; a
listening port gives ready; otherwise the failure reason is that the server
started but is not fully ready; a missing log file is its own failure.  Every
outcome, the ERROR one included, is produced only after the full window. -/
theorem startServer_single_check (log : String) (pl : Bool) :
    (startServer (some log) pl).1 = startServerWaitMs ∧
    (strIncludes log "Done" = true → strIncludes log "help" = true →
      (startServer (some log) pl).2 = .ready) ∧
    ((strIncludes log "Done" && strIncludes log "help") = false →
      strIncludes log "ERROR" = true →
      (startServer (some log) pl).2 =
        .failed "Server startup failed - check server.log") ∧
    ((strIncludes log "Done" && strIncludes log "help") = false →
      strIncludes log "ERROR" = false → pl = true →
      (startServer (some log) pl).2 = .ready) ∧
    ((strIncludes log "Done" && strIncludes log "help") = false →
      strIncludes log "ERROR" = false → pl = false →
      (startServer (some log) pl).2 =
        .failed "Server started but not fully ready") ∧
    (startServer none pl).1 = startServerWaitMs := by
  refine ⟨rfl, ?_, ?_, ?_, ?_, rfl⟩
  · intro h1 h2
    simp [startServer, readinessCheck, h1, h2]
  · intro h1 h2
    simp [startServer, readinessCheck, h1, h2]
  · intro h1 h2 h3
    simp [startServer, readinessCheck, h1, h2, h3]
  · intro h1 h2 h3
    simp [startServer, readinessCheck, h1, h2, h3]

/-- C6 amended witness: a clean ready log, checked after the full window. -/
theorem startServer_single_check_witness :
    (startServer (some "Done (3.2s)! For help, type help") true).1 =
      startServerWaitMs ∧
    (startServer (some "Done (3.2s)! For help, type help") true).2 = .ready := by
  have h := startServer_single_check "Done (3.2s)! For help, type help" true
  exact ⟨h.1, h.2.1 (by decide) (by decide)⟩

/-- C4 counterexample: deploying vanilla 1.20.4, a supported edition with an
unsupported version, passes validation and fails only at URL resolution, by
which time the workspace directory has been created and a port allocated, and
the cleanup path runs. -/
theorem deploy_unsupported_pair_side_effects :
    (deployServer [] reqBadPair envOk).1 =
      .err "Unsupported edition/version: vanilla 1.20.4" ∧
    (deployServer [] reqBadPair envOk).2.1.dirCreated = true ∧
    (deployServer [] reqBadPair envOk).2.1.portAllocated = some 25565 ∧
    (deployServer [] reqBadPair envOk).2.1.cleanupRan = true := by
  refine ⟨?_, ?_, ?_, ?_⟩ <;> decide

/-- C4 amended: an unsupported edition fails during validation with no
directory or port created, while a supported edition with an unsupported
version fails only at URL resolution, after workspace creation and port
allocation though before download and process start; both failure paths
invoke the cleanup routine. -/
theorem deploy_failure_points (reg : Registry) (req : DeployRequest)
    (env : DeployEnv) :
    (supportedEditions.contains req.edition = false →
      (deployServer reg req env).1 =
        .err ("Unsupported edition: " ++ req.edition) ∧
      (deployServer reg req env).2.1 = noEffects) ∧
    (∀ p,
      validateConfig req.edition req.gamemode req.difficulty req.ram env.maxRam
          = none →
      env.javaOk = true →
      findAvailablePort env.osBound env.portStart env.portEnd = some p →
      getDownloadUrl req.edition req.version = none →
      (deployServer reg req env).1 =
        .err ("Unsupported edition/version: " ++
          req.edition ++ " " ++ req.version) ∧
      (deployServer reg req env).2.1 =
        { noEffects with dirCreated := true, portAllocated := some p }) := by
  constructor
  · intro hbad
    have hv : validateConfig req.edition req.gamemode req.difficulty req.ram
        env.maxRam = some ("Unsupported edition: " ++ req.edition) := by
      simp only [validateConfig, hbad, Bool.not_false, if_true]
    simp [deployServer, hv]
  · intro p hv hjava hport hurl
    simp [deployServer, hv, hjava, hport, hurl]

/-- C4 amended witness: the unsupported edition spigot creates nothing, while
vanilla 1.20.4 creates a directory and allocates port 25565 first. -/
theorem deploy_failure_points_witness :
    ((deployServer [] reqBadEdition envOk).1 =
        .err ("Unsupported edition: " ++ reqBadEdition.edition) ∧
      (deployServer [] reqBadEdition envOk).2.1 = noEffects) ∧
    ((deployServer [] reqBadPair envOk).1 =
        .err ("Unsupported edition/version: " ++
          reqBadPair.edition ++ " " ++ reqBadPair.version) ∧
      (deployServer [] reqBadPair envOk).2.1 =
        { noEffects with dirCreated := true, portAllocated := some 25565 }) :=
  ⟨(deploy_failure_points [] reqBadEdition envOk).1 (by decide),
   (deploy_failure_points [] reqBadPair envOk).2 25565 (by decide) (by decide)
     (by decide) (by decide)⟩

/-- C7 counterexample: a deploy request with ram 99 under a maximum of 8 is
not rejected; the route clamps the value to 8, validateConfig then accepts
it, and the deploy proceeds to create the workspace.  No ValidationError is
produced for the oversized request. -/
theorem ramClamp_accepts_oversized :
    routeDeployRam (some 99) (some 8) = 8 ∧
    validateConfig "vanilla" none none (routeDeployRam (some 99) (some 8)) 8
      = none ∧
    (deployServer []
      { serverId := "mc-4"
        edition := "vanilla"
        version := "1.21"
        gamemode := none
        difficulty := none
        ram := routeDeployRam (some 99) (some 8) } envOk).2.1.dirCreated
      = true := by
  refine ⟨?_, ?_, ?_⟩ <;> decide

/-- C7 amended: the route clamps any requested RAM to the configured maximum
before the engine validates, so for a positive maximum the clamped value
always lies within 1..max and the RAM range check of validateConfig passes;
the request is accepted with the adjusted value rather than rejected. -/
theorem ramClamp_passes_validation (n m : Nat) (hm : 1 ≤ m) :
    routeDeployRam (some n) (some m) ≤ m ∧
    1 ≤ routeDeployRam (some n) (some m) ∧
    validateRam (routeDeployRam (some n) (some m)) m = none := by
  have hm0 : m ≠ 0 := by omega
  have hr : routeDeployRam (some n) (some m) =
      min (if n = 0 then 2 else n) m := by
    simp [routeDeployRam, hm0]
  have hle : routeDeployRam (some n) (some m) ≤ m := by
    rw [hr]; exact min_le_right _ _
  have hge : 1 ≤ routeDeployRam (some n) (some m) := by
    rw [hr]
    by_cases hn : n = 0
    · simp [hn]; omega
    · have : 1 ≤ n := by omega
      simp [hn]; omega
  refine ⟨hle, hge, ?_⟩
  rw [validateRam, if_neg]
  push_neg
  exact ⟨by omega, hle⟩

/-- C7 amended witness: the oversized request ram 99 with maximum 8. -/
theorem ramClamp_passes_validation_witness :
    routeDeployRam (some 99) (some 8) ≤ 8 ∧
    1 ≤ routeDeployRam (some 99) (some 8) ∧
    validateRam (routeDeployRam (some 99) (some 8)) 8 = none :=
  ramClamp_passes_validation 99 8 (by decide)

/-- C1 counterexample: with both deploys allocating before either launched
process binds its port, both instances end up deploying on port 25565, so
the set of ports held by simultaneously deploying instances has a
duplicate. -/
theorem concurrent_deploys_same_port :
    raceState.a = .deploying 25565 ∧
    raceState.b = .deploying 25565 ∧
    ¬ (activePorts raceState).Nodup := by
  refine ⟨?_, ?_, ?_⟩ <;> decide

theorem option_toList_nodup (o : Option Nat) : o.toList.Nodup := by
  cases o <;> simp

/-- C1 amended: the distinct-ports invariant holds only for serialized
allocations: when every port held by a deploying or running instance is
already bound at the OS level at the moment a new allocation scans (that is,
each earlier deploy progressed to its bind before the next scan), the scan
returns a fresh port and the active ports stay duplicate-free. -/
theorem alloc_serialized_distinct (s : ConcState) (t : Tid)
    (hact : ∀ q, q ∈ activePorts s → q ∈ s.osBound)
    (hidle : phaseOf s t = .idle) :
    (activePorts (allocStep s t)).Nodup := by
  cases hfind : findAvailablePort s.osBound portStartDefault portEndDefault with
  | none =>
    have hs : allocStep s t = s := by
      simp [allocStep, hidle, hfind]
    rw [hs]
    cases t with
    | ta =>
      have ha : s.a = .idle := hidle
      simp [activePorts, ha, activePort, option_toList_nodup]
    | tb =>
      have hb : s.b = .idle := hidle
      simp [activePorts, hb, activePort, option_toList_nodup]
  | some p =>
    have hfree : isPortAvailable s.osBound p = true :=
      (scanPorts_sound s.osBound _ _ _ hfind).1
    have hnotin : p ∉ s.osBound := by
      intro hmem
      have : s.osBound.contains p = true := List.elem_iff.mpr hmem
      rw [isPortAvailable, this] at hfree
      simp at hfree
    have hs : allocStep s t = setPhase s t (.deploying p) := by
      simp [allocStep, hidle, hfind]
    rw [hs]
    cases t with
    | ta =>
      have ha : s.a = .idle := hidle
      have hsub : ∀ q, q ∈ (activePort s.b).toList → q ∈ s.osBound := by
        intro q hq
        exact hact q (by rw [activePorts]; exact List.mem_append.mpr (Or.inr hq))
      simp only [setPhase, activePorts, activePort, Option.toList_some,
        List.singleton_append, List.nodup_cons]
      exact ⟨fun hmem => hnotin (hsub p hmem), option_toList_nodup _⟩
    | tb =>
      have hb : s.b = .idle := hidle
      have hsub : ∀ q, q ∈ (activePort s.a).toList → q ∈ s.osBound := by
        intro q hq
        exact hact q (by rw [activePorts]; exact List.mem_append.mpr (Or.inl hq))
      simp only [setPhase, activePorts, activePort, Option.toList_some,
        List.nodup_append, List.nodup_cons, List.nodup_nil]
      refine ⟨option_toList_nodup _, by simp, ?_⟩
      intro q hq hq'
      have : q = p := by simpa using hq'
      subst this
      exact hnotin (hsub q hq)

/-- C1 amended witness: one instance already running with its port 25570
bound; a serialized second allocation grants the fresh port 25565 and the
active ports stay distinct. -/
theorem alloc_serialized_distinct_witness :
    (activePorts (allocStep
      { osBound := [25570], a := .running 25570, b := .idle } .tb)).Nodup :=
  alloc_serialized_distinct
    { osBound := [25570], a := .running 25570, b := .idle } .tb
    (by intro q hq; simpa [activePorts, activePort] using hq) rfl

theorem filter_self_idem {α : Type} (p : α → Bool) (l : List α) :
    (l.filter p).filter p = l.filter p := by
  induction l with
  | nil => rfl
  | cons a t ih =>
    by_cases h : p a = true
    · simp [List.filter_cons, h, ih]
    · have h' : p a = false := by simpa using h
      simp [List.filter_cons, h', ih]

theorem regDelete_idem (reg : Registry) (sid : String) :
    regDelete (regDelete reg sid) sid = regDelete reg sid :=
  filter_self_idem _ reg

theorem regGet_regDelete (reg : Registry) (sid : String) :
    regGet (regDelete reg sid) sid = none := by
  induction reg with
  | nil => rfl
  | cons e t ih =>
    by_cases h : (e.1 == sid) = true
    · simp [regDelete, List.filter_cons, h] at ih ⊢
      exact ih
    · have h' : (e.1 == sid) = false := by simpa using h
      simp [regDelete, List.filter_cons, h'] at ih ⊢
      simp [regGet, List.find?_cons, h', regDelete]

theorem stopServer_registry_cases (reg : Registry) (sid : String)
    (props : Option PropsFile) (osBound : List Nat) (procCount : Nat) :
    (stopServer reg sid props osBound procCount).registry = reg ∨
    (stopServer reg sid props osBound procCount).registry = regDelete reg sid := by
  by_cases h : isServerRunning props osBound procCount = true
  · left; simp [stopServer, h]
  · have h' : isServerRunning props osBound procCount = false := by simpa using h
    right; simp [stopServer, h']

/-- C9: deleteServer never throws and reports success on any id, known,
unknown or already deleted; afterwards the registry has no entry for the id
and the workspace directory is gone, and a second call, under any later stop
observations, returns success again and leaves the state exactly where the
first call left it. -/
theorem deleteServer_idempotent (reg : Registry) (fsDirs : List String)
    (sid : String) (props1 props2 : Option PropsFile)
    (osBound1 osBound2 : List Nat) (pc1 pc2 : Nat) :
    (deleteServer reg fsDirs sid props1 osBound1 pc1).1 = true ∧
    regGet (deleteServer reg fsDirs sid props1 osBound1 pc1).2.1 sid = none ∧
    sid ∉ (deleteServer reg fsDirs sid props1 osBound1 pc1).2.2 ∧
    deleteServer (deleteServer reg fsDirs sid props1 osBound1 pc1).2.1
        (deleteServer reg fsDirs sid props1 osBound1 pc1).2.2 sid props2
        osBound2 pc2 =
      (true, (deleteServer reg fsDirs sid props1 osBound1 pc1).2.1,
        (deleteServer reg fsDirs sid props1 osBound1 pc1).2.2) := by
  refine ⟨rfl, ?_, ?_, ?_⟩
  · exact regGet_regDelete _ sid
  · intro hmem
    simp only [deleteServer, List.mem_filter] at hmem
    simpa using hmem.2
  · simp only [deleteServer, Prod.mk.injEq, true_and]
    constructor
    · rcases stopServer_registry_cases
        (regDelete (stopServer reg sid props1 osBound1 pc1).registry sid) sid
        props2 osBound2 pc2 with h | h
      · rw [h, regDelete_idem]
      · rw [h, regDelete_idem, regDelete_idem]
    · exact filter_self_idem _ _

/-- C9 closing evaluation: the idempotence theorem applied to the concrete
instance cfgA and then to the already deleted id. -/
theorem deleteServer_idempotent_witness :
    (deleteServer regA ["mc-1"] "mc-1" (some propsA) [] 0).1 = true ∧
    regGet (deleteServer regA ["mc-1"] "mc-1" (some propsA) [] 0).2.1 "mc-1"
      = none ∧
    "mc-1" ∉ (deleteServer regA ["mc-1"] "mc-1" (some propsA) [] 0).2.2 ∧
    deleteServer (deleteServer regA ["mc-1"] "mc-1" (some propsA) [] 0).2.1
        (deleteServer regA ["mc-1"] "mc-1" (some propsA) [] 0).2.2 "mc-1"
        (some propsA) [] 0 =
      (true, (deleteServer regA ["mc-1"] "mc-1" (some propsA) [] 0).2.1,
        (deleteServer regA ["mc-1"] "mc-1" (some propsA) [] 0).2.2) :=
  deleteServer_idempotent regA ["mc-1"] "mc-1" (some propsA) (some propsA)
    [] [] 0 0

end MCApi
